import Mathlib

set_option maxRecDepth 40000

/-!
Verification development for the MULTI001 multi-sensor MQTT firmware.

The definitions below are a shallow embedding of the firmware sources:

* the persistent configuration store of `multiHTT-0.90.cpp`
  (`MQTT_CONFIG`, `loadConfig`, `saveConfig`) over a byte-level model of
  the EEPROM (a `List Nat` of byte cells, marker byte at address 0,
  record body at address 1);
* the captive-portal submission handling in `setup()` of the same file;
* the two-timer publish scheduler of `loop()` in `multiHTT-0.90.cpp`
  (soft/hard deadlines, ArduinoJson document used as the last-published
  snapshot, change detection);
* the two-timer scheduler of `loop()` in `multi001-v1.cpp` (configurable
  intervals, unguarded switch channels);
* the single-deadline, motion-latched scheduler of the earlier
  `multi001-v1.cpp` variant.

Numeric sensor values are modelled as integers: everywhere a claim under
study touches them, the C code has already cast the reading with
`(int) round(...)` or compares `digitalRead` results, so no fractional
arithmetic is involved.  The C `long`/`int` deadline arithmetic is
modelled on `Int`; millisecond-clock wraparound is outside every claim
studied here.
-/

/-! ## Byte-level EEPROM model

The EEPROM is a list of byte cells (`Nat`, each intended `< 256`).
`EEPROM.begin(512)` fixes the length at 512.  `EEPROM.write` sets one
cell, `EEPROM.put` copies a struct image at an offset, `EEPROM.read`
and `EEPROM.get` read them back. -/

def EEPROM_IS_CONFIGURED_TOKEN_STORAGE_ADDRESS : Nat := 0

def EEPROM_IS_CONFIGURED_TOKEN_VALUE : Nat := 0xAE

def MQTT_CONFIG_STORAGE_ADDRESS : Nat := 1

/-- One-byte EEPROM write (`EEPROM.write(addr, v)`). -/
def writeByte (storage : List Nat) (addr v : Nat) : List Nat :=
  storage.set addr v

/-- Multi-byte EEPROM write (`EEPROM.put(addr, struct)`): overwrite the
region starting at `addr` with the struct's byte image. -/
def writeBytes (storage : List Nat) (addr : Nat) (data : List Nat) : List Nat :=
  storage.take addr ++ data ++ storage.drop (addr + data.length)

/-- One-byte EEPROM read (`EEPROM.read(addr)`). -/
def readByte (storage : List Nat) (addr : Nat) : Nat :=
  storage.getD addr 0

/-- Multi-byte EEPROM read (`EEPROM.get(addr, struct)`): the byte image
of length `len` starting at `addr`. -/
def chunk (storage : List Nat) (addr len : Nat) : List Nat :=
  (storage.drop addr).take len

/-! ## The persisted configuration record

`MQTT_CONFIG` of `multiHTT-0.90.cpp`: fixed-capacity `char` arrays and
one C `int`.  The strings are the meaningful content of the `char`
arrays (up to the NUL terminator); `encodeStr` lays a string out in its
array with NUL padding, exactly as the zero-initialised firmware globals
hold it. -/

@[ext]
structure MQTT_CONFIG where
  servername : String       -- char[40]
  serverport : Int          -- int
  username : String         -- char[20]
  password : String         -- char[20]
  topic : String            -- char[60]
  sw0propertyname : String  -- char[20]
  sw1propertyname : String  -- char[20]
  sw2propertyname : String  -- char[20]
  sw3propertyname : String  -- char[20]
  deriving DecidableEq, Repr

/-- Byte image of a string (one byte per character). -/
def strBytes (s : String) : List Nat := s.data.map Char.toNat

/-- Byte image of a `char[cap]` field holding string `s`: the character
bytes followed by NUL padding up to the capacity. -/
def encodeStr (cap : Nat) (s : String) : List Nat :=
  strBytes s ++ List.replicate (cap - (strBytes s).length) 0

/-- Read a C string back out of a `char` array image: the bytes up to
the first NUL. -/
def decodeStr (bs : List Nat) : String :=
  String.mk ((bs.takeWhile (fun b => b != 0)).map Char.ofNat)

/-- Byte image of a 32-bit little-endian two's-complement `int`. -/
def encodePort (p : Int) : List Nat :=
  [(p % 4294967296).toNat % 256,
   (p % 4294967296).toNat / 256 % 256,
   (p % 4294967296).toNat / 65536 % 256,
   (p % 4294967296).toNat / 16777216 % 256]

/-- Read a 32-bit little-endian two's-complement `int` back. -/
def decodePort (bs : List Nat) : Int :=
  let n : Nat := bs.getD 0 0 + 256 * bs.getD 1 0 + 65536 * bs.getD 2 0
      + 16777216 * bs.getD 3 0
  if n < 2147483648 then (n : Int) else (n : Int) - 4294967296

/-- Byte image of the whole `MQTT_CONFIG` struct, in declaration order
(the struct has no interior padding: 40+4+20+20+60+20+20+20+20 = 224). -/
def encodeConfig (c : MQTT_CONFIG) : List Nat :=
  encodeStr 40 c.servername ++ encodePort c.serverport ++
  encodeStr 20 c.username ++ encodeStr 20 c.password ++
  encodeStr 60 c.topic ++
  encodeStr 20 c.sw0propertyname ++ encodeStr 20 c.sw1propertyname ++
  encodeStr 20 c.sw2propertyname ++ encodeStr 20 c.sw3propertyname

/-- Size of the struct image in bytes. -/
def configSize : Nat := 224

/-- Decode a struct image back into a record. -/
def decodeConfig (bs : List Nat) : MQTT_CONFIG where
  servername := decodeStr (chunk bs 0 40)
  serverport := decodePort (chunk bs 40 4)
  username := decodeStr (chunk bs 44 20)
  password := decodeStr (chunk bs 64 20)
  topic := decodeStr (chunk bs 84 60)
  sw0propertyname := decodeStr (chunk bs 144 20)
  sw1propertyname := decodeStr (chunk bs 164 20)
  sw2propertyname := decodeStr (chunk bs 184 20)
  sw3propertyname := decodeStr (chunk bs 204 20)

/-- A string fits a `char[cap]` field: it leaves room for the NUL
terminator, contains no NUL character, and is single-byte (ASCII-range)
throughout, matching what the portal form fields deliver. -/
def WFfield (cap : Nat) (s : String) : Prop :=
  s.data.length < cap ∧ ∀ c ∈ s.data, c.toNat ≠ 0 ∧ c.toNat < 256

instance (cap : Nat) (s : String) : Decidable (WFfield cap s) := by
  unfold WFfield; infer_instance

/-- All fields of a record are representable in the struct. -/
def WFConfig (c : MQTT_CONFIG) : Prop :=
  WFfield 40 c.servername ∧
  (-2147483648 ≤ c.serverport ∧ c.serverport < 2147483648) ∧
  WFfield 20 c.username ∧ WFfield 20 c.password ∧ WFfield 60 c.topic ∧
  WFfield 20 c.sw0propertyname ∧ WFfield 20 c.sw1propertyname ∧
  WFfield 20 c.sw2propertyname ∧ WFfield 20 c.sw3propertyname

instance (c : MQTT_CONFIG) : Decidable (WFConfig c) := by
  unfold WFConfig; infer_instance

/-- `loadConfig` of `multiHTT-0.90.cpp`: read the marker byte at address
0; when it holds the token, `EEPROM.get` the record from address 1 and
return true; otherwise leave the caller's record alone and return
false. -/
def loadConfig (storage : List Nat) (config : MQTT_CONFIG) : Bool × MQTT_CONFIG :=
  if readByte storage EEPROM_IS_CONFIGURED_TOKEN_STORAGE_ADDRESS =
      EEPROM_IS_CONFIGURED_TOKEN_VALUE then
    (true, decodeConfig (chunk storage MQTT_CONFIG_STORAGE_ADDRESS configSize))
  else
    (false, config)

/-- `saveConfig` of `multiHTT-0.90.cpp`: `EEPROM.write` the token to
address 0, then `EEPROM.put` the record at address 1 (then commit). -/
def saveConfig (config : MQTT_CONFIG) (storage : List Nat) : List Nat :=
  writeBytes
    (writeByte storage EEPROM_IS_CONFIGURED_TOKEN_STORAGE_ADDRESS
      EEPROM_IS_CONFIGURED_TOKEN_VALUE)
    MQTT_CONFIG_STORAGE_ADDRESS (encodeConfig config)

/-- The successive buffer states `saveConfig` goes through, in program
order: initial, after the marker write, after the body write. -/
def saveConfigTrace (config : MQTT_CONFIG) (storage : List Nat) : List (List Nat) :=
  [storage,
   writeByte storage EEPROM_IS_CONFIGURED_TOKEN_STORAGE_ADDRESS
     EEPROM_IS_CONFIGURED_TOKEN_VALUE,
   saveConfig config storage]

/-! ## Captive-portal submission handling (`setup()` of multiHTT-0.90)

After `wifiManager.autoConnect` returns, `setup()` checks the
`shouldSaveConfig` flag set by the portal's save callback; when set it
copies every form value verbatim (`strcpy`/`atoi`) into `mqttConfig`
and calls `saveConfig`.  No field is validated. -/

structure PortalSubmission where
  servername : String
  serverport : Int          -- atoi(custom_mqtt_serverport.getValue())
  username : String
  password : String
  topic : String
  sw0propertyname : String
  sw1propertyname : String
  sw2propertyname : String
  sw3propertyname : String
  deriving DecidableEq, Repr

/-- The `strcpy`/`atoi` block: every configuration field is overwritten
with the submitted value. -/
def mergeSubmission (sub : PortalSubmission) : MQTT_CONFIG where
  servername := sub.servername
  serverport := sub.serverport
  username := sub.username
  password := sub.password
  topic := sub.topic
  sw0propertyname := sub.sw0propertyname
  sw1propertyname := sub.sw1propertyname
  sw2propertyname := sub.sw2propertyname
  sw3propertyname := sub.sw3propertyname

/-- The `if (shouldSaveConfig) ... saveConfig(mqttConfig)` block of
`setup()`: returns the in-memory configuration and the EEPROM contents
after the block. -/
def applyPortal (shouldSaveConfig : Bool) (sub : PortalSubmission)
    (config : MQTT_CONFIG) (storage : List Nat) : MQTT_CONFIG × List Nat :=
  if shouldSaveConfig then
    (mergeSubmission sub, saveConfig (mergeSubmission sub) storage)
  else
    (config, storage)

/-! ## Concrete fixtures used by witnesses and counterexamples -/

/-- A fully-populated configuration record. -/
def sampleConfig : MQTT_CONFIG where
  servername := "broker.local"
  serverport := 1883
  username := "user"
  password := "pass"
  topic := "multisensor/abc/status"
  sw0propertyname := "door"
  sw1propertyname := "window"
  sw2propertyname := "hatch"
  sw3propertyname := "vent"

/-- The zero-initialised record (the firmware's global `mqttConfig`
before anything is loaded into it). -/
def emptyConfig : MQTT_CONFIG where
  servername := ""
  serverport := 0
  username := ""
  password := ""
  topic := ""
  sw0propertyname := ""
  sw1propertyname := ""
  sw2propertyname := ""
  sw3propertyname := ""

/-- A factory-fresh 512-byte EEPROM image. -/
def zeroStorage : List Nat := List.replicate 512 0

/-- A portal submission whose broker host field was left empty. -/
def sampleSubmission : PortalSubmission where
  servername := ""
  serverport := 1883
  username := "user"
  password := "pass"
  topic := "multisensor/abc/status"
  sw0propertyname := "door"
  sw1propertyname := ""
  sw2propertyname := ""
  sw3propertyname := ""

/-! ## ArduinoJson document model

`loop()` of `multiHTT-0.90.cpp` keeps its last-published values in a
global `StaticJsonDocument` (`jsonBuffer`), which therefore doubles as
the `PublishedSnapshot`.  The document is modelled as an ordered
association list.  Two comparison idioms occur in the source and are
modelled separately:

* `(int) jsonBuffer[key] != value` casts the variant to `int`, so an
  absent member reads as `0` (`castGet`);
* `jsonBuffer[key] != value` compares the variant itself, so an absent
  member is unequal to every integer (`getMem _ _ ≠ some _`). -/

abbrev Buffer := List (String × Int)

/-- Member lookup (`jsonBuffer[key]` read). -/
def getMem : Buffer → String → Option Int
  | [], _ => none
  | (k, v) :: rest, key => if k = key then some v else getMem rest key

/-- Member assignment (`jsonBuffer[key] = value`): replace in place, or
append a new member. -/
def setMem : Buffer → String → Int → Buffer
  | [], key, v => [(key, v)]
  | (k, w) :: rest, key, v =>
      if k = key then (k, v) :: rest else (k, w) :: setMem rest key v

/-- `(int) jsonBuffer[key]`: an absent or null member casts to 0. -/
def castGet (b : Buffer) (k : String) : Int := (getMem b k).getD 0

/-- One Dallas one-wire probe: its 8-byte address and its temperature
reading already cast with `(int) round(getTempC(...))`. -/
structure DallasReading where
  address : List Nat
  tempC : Int
  deriving DecidableEq, Repr

/-- One hex digit, lowercase, as produced by `%02x`. -/
def hexChar (n : Nat) : Char :=
  if n < 10 then Char.ofNat (48 + n) else Char.ofNat (87 + n)

/-- `%02x` rendering of one byte. -/
def byteHexChars (b : Nat) : List Char := [hexChar (b / 16 % 16), hexChar (b % 16)]

/-- `sprintf(dallasAddressString, "DST%02x...", address[0..7])`. -/
def dallasKey (address : List Nat) : String :=
  String.mk ('D' :: 'S' :: 'T' :: (address.map byteHexChars).flatten)

/-- The recurring statement
`if ((int) jsonBuffer[key] != value) { jsonBuffer[key] = value; dirty = true; }`
(used for Dallas, humidity and temperature members). -/
def castCompareStep (key : String) (value : Int) (bd : Buffer × Bool) :
    Buffer × Bool :=
  if castGet bd.1 key ≠ value then (setMem bd.1 key value, true) else bd

/-- The recurring statement
`if (jsonBuffer[key] != value) { jsonBuffer[key] = value; dirty = true; }`
(used for switch members, where the variant itself is compared and an
absent member is unequal to every integer). -/
def variantCompareStep (key : String) (value : Int) (bd : Buffer × Bool) :
    Buffer × Bool :=
  if getMem bd.1 key ≠ some value then (setMem bd.1 key value, true) else bd

namespace MultiHTT

def MQTT_PUBLISH_SOFT_INTERVAL : Int := 3000

def MQTT_PUBLISH_HARD_INTERVAL : Int := 30000

def SENSOR_UNDEFINED_VALUE : Int := 999

/-- Everything one iteration of `loop()` reads from the outside world:
the clock, the sensors and the broker's publish result.  A Dallas slot
is `none` when `getAddress(dallasAddress, i)` fails for that index.
The AM2322 integers are the already-rounded `(int) round(get...())`
values; the switch integers are `digitalRead` results.  `publishOk` is
the boolean result of `mqttClient.publish`, which the source code
discards. -/
structure TickInput where
  now : Int
  dallas : List (Option DallasReading)
  amConnected : Bool
  amReadOk : Bool
  amHumidity : Int
  amTemperature : Int
  sw0 : Int
  sw1 : Int
  sw2 : Int
  sw3 : Int
  publishOk : Bool
  deriving DecidableEq, Repr

/-- The static locals of `loop()` plus the global `jsonBuffer`. -/
structure SchedState where
  softDeadline : Int
  hardDeadline : Int
  buffer : Buffer
  deriving DecidableEq, Repr

/-- One step of the Dallas block's `for` loop body. -/
def pollDallas (bd : Buffer × Bool) (r : Option DallasReading) : Buffer × Bool :=
  match r with
  | none => bd
  | some r => castCompareStep (dallasKey r.address) r.tempC bd

/-- The `AM2322.isConnected()` block: on a successful read store the
rounded humidity then temperature, on a failed read store the sentinel
in both members, and when not connected do nothing at all.  (This text
is identical in `multiHTT-0.90.cpp` and `multi001-v1.cpp`, so both
embeddings use it.) -/
def pollAM (connected readOk : Bool) (humidity temperature : Int)
    (bd : Buffer × Bool) : Buffer × Bool :=
  if connected then
    if readOk then
      castCompareStep "temperature" temperature
        (castCompareStep "humidity" humidity bd)
    else
      castCompareStep "temperature" SENSOR_UNDEFINED_VALUE
        (castCompareStep "humidity" SENSOR_UNDEFINED_VALUE bd)
  else bd

/-- One `if (strlen(propertyname)) ...` switch block of
`multiHTT-0.90.cpp`: skipped entirely when the alias is empty. -/
def pollSwitch (propertyname : String) (reading : Int)
    (bd : Buffer × Bool) : Buffer × Bool :=
  if propertyname.length ≠ 0 then variantCompareStep propertyname reading bd
  else bd

/-- The whole polling section of `loop()`, in program order: Dallas
probes, AM2322, then switches SW0..SW3; `dirty` starts false. -/
def pollAll (cfg : MQTT_CONFIG) (b : Buffer) (inp : TickInput) : Buffer × Bool :=
  pollSwitch cfg.sw3propertyname inp.sw3
    (pollSwitch cfg.sw2propertyname inp.sw2
      (pollSwitch cfg.sw1propertyname inp.sw1
        (pollSwitch cfg.sw0propertyname inp.sw0
          (pollAM inp.amConnected inp.amReadOk inp.amHumidity inp.amTemperature
            (inp.dallas.foldl pollDallas (b, false))))))

/-- One iteration of `loop()` in `multiHTT-0.90.cpp` from the soft-gate
check on.  Returns the new static/global state and the payload passed
to `mqttClient.publish` when the publish branch runs (the serialised
`jsonBuffer`, modelled as the association list itself).  The source
discards the boolean `publish` returns, so `inp.publishOk` is unused. -/
def loop (cfg : MQTT_CONFIG) (s : SchedState) (inp : TickInput) :
    SchedState × Option Buffer :=
  if inp.now > s.softDeadline then
    let bd := pollAll cfg s.buffer inp
    if bd.2 = true ∨ inp.now > s.hardDeadline then
      ({ softDeadline := inp.now + MQTT_PUBLISH_SOFT_INTERVAL,
         hardDeadline := inp.now + MQTT_PUBLISH_HARD_INTERVAL,
         buffer := bd.1 }, some bd.1)
    else
      ({ softDeadline := inp.now + MQTT_PUBLISH_SOFT_INTERVAL,
         hardDeadline := s.hardDeadline,
         buffer := bd.1 }, none)
  else (s, none)

end MultiHTT

namespace Multi001V1

/-- `USER_CONFIGURATION` of `multi001-v1.cpp`: publication intervals
are user-configured fields here. -/
structure USER_CONFIGURATION where
  servername : String
  serverport : Int
  username : String
  password : String
  topic : String
  softpublicationinterval : Int
  hardpublicationinterval : Int
  sw0propertyname : String
  sw1propertyname : String
  deriving DecidableEq, Repr

/-- Inputs of one `loop()` iteration of `multi001-v1.cpp` (its Dallas
block is commented out in the source, so it has no Dallas input). -/
structure TickInput where
  now : Int
  amConnected : Bool
  amReadOk : Bool
  amHumidity : Int
  amTemperature : Int
  sw0 : Int
  sw1 : Int
  publishOk : Bool
  deriving DecidableEq, Repr

/-- The polling section of `loop()` in `multi001-v1.cpp`: AM2322 block
(verbatim the same text as multiHTT-0.90), then SW0 and SW1.  Unlike
`multiHTT-0.90.cpp` the switch statements carry no `strlen` guard — the
switch is read and compared whatever the alias is. -/
def pollAll (cfg : USER_CONFIGURATION) (b : Buffer) (inp : TickInput) :
    Buffer × Bool :=
  variantCompareStep cfg.sw1propertyname inp.sw1
    (variantCompareStep cfg.sw0propertyname inp.sw0
      (MultiHTT.pollAM inp.amConnected inp.amReadOk inp.amHumidity
        inp.amTemperature (b, false)))

/-- One iteration of `loop()` in `multi001-v1.cpp` from the soft-gate
check on.  Transcribed exactly as written in the source: the publish
branch sets `mqttPublishHardDeadline = now + softpublicationinterval`
and the closing statement sets
`mqttPublishSoftDeadline = now + hardpublicationinterval`. -/
def loop (cfg : USER_CONFIGURATION) (s : MultiHTT.SchedState)
    (inp : TickInput) : MultiHTT.SchedState × Option Buffer :=
  if inp.now > s.softDeadline then
    let bd := pollAll cfg s.buffer inp
    if bd.2 = true ∨ inp.now > s.hardDeadline then
      ({ softDeadline := inp.now + cfg.hardpublicationinterval,
         hardDeadline := inp.now + cfg.softpublicationinterval,
         buffer := bd.1 }, some bd.1)
    else
      ({ softDeadline := inp.now + cfg.hardpublicationinterval,
         hardDeadline := s.hardDeadline,
         buffer := bd.1 }, none)
  else (s, none)

end Multi001V1

namespace MotionV1

def MQTT_PUBLISH_INTERVAL : Int := 30000

/-- The static/global state of `loop()` in the motion-latch variant of
`multi001-v1.cpp`: the `MOTION_DETECTED` latch (set by the PIR
interrupt handler between ticks) and `mqttPublishDeadline`. -/
structure MotionState where
  motionDetected : Bool
  publishDeadline : Int
  deriving DecidableEq, Repr

/-- Inputs of one tick: the clock and the fresh sensor reads performed
inside the publish branch (`getTempCByIndex(0)`, `digitalRead` of the
PIR pin, `analogRead` of the lux pin). -/
structure MotionInput where
  now : Int
  temperature : Int
  motionPin : Int
  lux : Int
  deriving DecidableEq, Repr

/-- The published reading triple (`temperature`, `motion`, `lux`). -/
structure MotionPayload where
  temperature : Int
  motion : Int
  lux : Int
  deriving DecidableEq, Repr

/-- One iteration of the motion-latch `loop()`: when the latch is set
or the deadline has passed, poll all sensors, publish them, clear the
latch and push the deadline out by `MQTT_PUBLISH_INTERVAL`. -/
def loop (s : MotionState) (inp : MotionInput) :
    MotionState × Option MotionPayload :=
  if s.motionDetected = true ∨ inp.now > s.publishDeadline then
    ({ motionDetected := false,
       publishDeadline := inp.now + MQTT_PUBLISH_INTERVAL },
     some { temperature := inp.temperature, motion := inp.motionPin,
            lux := inp.lux })
  else (s, none)

end MotionV1

/-! ## Scheduler fixtures -/

/-- A `multi001-v1.cpp` configuration with the default intervals
(soft 3000 ms, hard 30000 ms) and the default switch aliases. -/
def v1Config : Multi001V1.USER_CONFIGURATION where
  servername := "broker.local"
  serverport := 1883
  username := "user"
  password := "pass"
  topic := "multisensor/abc"
  softpublicationinterval := 3000
  hardpublicationinterval := 30000
  sw0propertyname := "sw0"
  sw1propertyname := "sw1"

/-- Like `v1Config` but with the SW0 alias submitted empty. -/
def v1ConfigEmptyAlias : Multi001V1.USER_CONFIGURATION where
  servername := "broker.local"
  serverport := 1883
  username := "user"
  password := "pass"
  topic := "multisensor/abc"
  softpublicationinterval := 3000
  hardpublicationinterval := 30000
  sw0propertyname := ""
  sw1propertyname := "sw1"

/-- A quiet tick for the v1 scheduler: no AM2322, both switches read 0. -/
def v1QuietTick : Multi001V1.TickInput where
  now := 1
  amConnected := false
  amReadOk := false
  amHumidity := 0
  amTemperature := 0
  sw0 := 0
  sw1 := 0
  publishOk := true

/-- A quiet tick for the v1 scheduler with an empty SW0 alias in play. -/
def v1QuietTickEmptyAlias : Multi001V1.TickInput where
  now := 1
  amConnected := false
  amReadOk := false
  amHumidity := 0
  amTemperature := 0
  sw0 := 0
  sw1 := 0
  publishOk := true

/-- A multiHTT tick whose AM2322 read succeeds but whose broker publish
fails. -/
def failedPublishTick : MultiHTT.TickInput where
  now := 1
  dallas := []
  amConnected := true
  amReadOk := true
  amHumidity := 50
  amTemperature := 21
  sw0 := 0
  sw1 := 0
  sw2 := 0
  sw3 := 0
  publishOk := false

/-- A multiHTT tick on which the AM2322 reports not-connected. -/
def disconnectedTick : MultiHTT.TickInput where
  now := 1
  dallas := []
  amConnected := false
  amReadOk := false
  amHumidity := 0
  amTemperature := 0
  sw0 := 0
  sw1 := 0
  sw2 := 0
  sw3 := 0
  publishOk := true

/-- A scheduler state still holding AM2322 values published earlier. -/
def staleState : MultiHTT.SchedState where
  softDeadline := 0
  hardDeadline := 0
  buffer := [("humidity", 50), ("temperature", 21)]

/-- A multiHTT tick on which the AM2322 is connected but its read
fails. -/
def readFailTick : MultiHTT.TickInput where
  now := 1
  dallas := []
  amConnected := true
  amReadOk := false
  amHumidity := 0
  amTemperature := 0
  sw0 := 0
  sw1 := 0
  sw2 := 0
  sw3 := 0
  publishOk := true


/-! ## Roundtrip lemmas for the store -/

theorem take_of_length_eq {A R : List Nat} {n : Nat} (h : A.length = n) :
    (A ++ R).take n = A := by
  subst h; exact List.take_left A R

theorem drop_of_length_eq {A R : List Nat} {n : Nat} (h : A.length = n) :
    (A ++ R).drop n = R := by
  subst h; exact List.drop_left A R

theorem drop_add_of_drop_eq {E A R : List Nat} {m n : Nat}
    (h : E.drop m = A ++ R) (hA : A.length = n) : E.drop (m + n) = R := by
  have h1 : E.drop (m + n) = (E.drop m).drop n := (List.drop_drop n m E).symm
  rw [h1, h, drop_of_length_eq hA]

theorem strBytes_length (s : String) : (strBytes s).length = s.data.length := by
  simp [strBytes]

theorem encodeStr_length {cap : Nat} {s : String} (h : s.data.length < cap) :
    (encodeStr cap s).length = cap := by
  unfold encodeStr
  rw [List.length_append, List.length_replicate, strBytes_length]
  omega

theorem takeWhile_append_replicate_zero (xs : List Nat) (k : Nat)
    (hk : 0 < k) (h : ∀ x ∈ xs, x ≠ 0) :
    (xs ++ List.replicate k 0).takeWhile (fun b => b != 0) = xs := by
  induction xs with
  | nil =>
      cases k with
      | zero => omega
      | succ k => simp [List.replicate_succ, List.takeWhile_cons]
  | cons a xs ih =>
      have ha : a ≠ 0 := h a (List.mem_cons_self a xs)
      have hxs : ∀ x ∈ xs, x ≠ 0 := fun x hx => h x (List.mem_cons_of_mem a hx)
      simp [List.takeWhile_cons, ha, ih hxs]

theorem decodeStr_encodeStr {cap : Nat} {s : String}
    (h : WFfield cap s) : decodeStr (encodeStr cap s) = s := by
  obtain ⟨hlen, hchars⟩ := h
  have hk : 0 < cap - (strBytes s).length := by
    rw [strBytes_length]; omega
  have hnz : ∀ x ∈ strBytes s, x ≠ 0 := by
    intro x hx
    simp only [strBytes, List.mem_map] at hx
    obtain ⟨c, hc, rfl⟩ := hx
    exact (hchars c hc).1
  unfold decodeStr encodeStr
  rw [takeWhile_append_replicate_zero _ _ hk hnz]
  unfold strBytes
  rw [List.map_map]
  have : ∀ l : List Char, l.map (fun c => Char.ofNat c.toNat) = l := by
    intro l
    induction l with
    | nil => rfl
    | cons c l ih => simp [ih, Char.ofNat_toNat]
  have h2 : (fun b => Char.ofNat b) ∘ Char.toNat = fun c => Char.ofNat c.toNat := rfl
  rw [h2, this]

theorem encodePort_length (p : Int) : (encodePort p).length = 4 := rfl

theorem decodePort_encodePort {p : Int}
    (h1 : -2147483648 ≤ p) (h2 : p < 2147483648) :
    decodePort (encodePort p) = p := by
  unfold decodePort encodePort
  simp only [List.getD, List.get?_cons_zero, List.get?_cons_succ, Option.getD_some]
  have hm0 : 0 ≤ p % 4294967296 := Int.emod_nonneg p (by norm_num)
  have hm1 : p % 4294967296 < 4294967296 := Int.emod_lt_of_pos p (by norm_num)
  have ht : ((p % 4294967296).toNat : Int) = p % 4294967296 :=
    Int.toNat_of_nonneg hm0
  omega

theorem encodeConfig_length {c : MQTT_CONFIG} (h : WFConfig c) :
    (encodeConfig c).length = configSize := by
  obtain ⟨h1, hp, h2, h3, h4, h5, h6, h7, h8⟩ := h
  simp [encodeConfig, configSize, encodeStr_length h1.1, encodeStr_length h2.1,
    encodeStr_length h3.1, encodeStr_length h4.1, encodeStr_length h5.1,
    encodeStr_length h6.1, encodeStr_length h7.1, encodeStr_length h8.1,
    encodePort_length]

theorem decodeConfig_encodeConfig {c : MQTT_CONFIG} (h : WFConfig c) :
    decodeConfig (encodeConfig c) = c := by
  obtain ⟨h1, hp, h2, h3, h4, h5, h6, h7, h8⟩ := h
  have l1 : (encodeStr 40 c.servername).length = 40 := encodeStr_length h1.1
  have lp : (encodePort c.serverport).length = 4 := encodePort_length _
  have l2 : (encodeStr 20 c.username).length = 20 := encodeStr_length h2.1
  have l3 : (encodeStr 20 c.password).length = 20 := encodeStr_length h3.1
  have l4 : (encodeStr 60 c.topic).length = 60 := encodeStr_length h4.1
  have l5 : (encodeStr 20 c.sw0propertyname).length = 20 := encodeStr_length h5.1
  have l6 : (encodeStr 20 c.sw1propertyname).length = 20 := encodeStr_length h6.1
  have l7 : (encodeStr 20 c.sw2propertyname).length = 20 := encodeStr_length h7.1
  have d0 : (encodeConfig c).drop 0 =
      encodeStr 40 c.servername ++ (encodePort c.serverport ++
      (encodeStr 20 c.username ++ (encodeStr 20 c.password ++
      (encodeStr 60 c.topic ++ (encodeStr 20 c.sw0propertyname ++
      (encodeStr 20 c.sw1propertyname ++ (encodeStr 20 c.sw2propertyname ++
      encodeStr 20 c.sw3propertyname))))))) := by
    simp [encodeConfig]
  have d40 := drop_add_of_drop_eq d0 l1
  have d44 := drop_add_of_drop_eq d40 lp
  have d64 := drop_add_of_drop_eq d44 l2
  have d84 := drop_add_of_drop_eq d64 l3
  have d144 := drop_add_of_drop_eq d84 l4
  have d164 := drop_add_of_drop_eq d144 l5
  have d184 := drop_add_of_drop_eq d164 l6
  have d204 := drop_add_of_drop_eq d184 l7
  norm_num at d40 d44 d64 d84 d144 d164 d184 d204
  have e1 : decodeStr (chunk (encodeConfig c) 0 40) = c.servername := by
    simp only [chunk]
    rw [d0, take_of_length_eq l1, decodeStr_encodeStr h1]
  have ep : decodePort (chunk (encodeConfig c) 40 4) = c.serverport := by
    simp only [chunk]
    rw [d40, take_of_length_eq lp, decodePort_encodePort hp.1 hp.2]
  have e2 : decodeStr (chunk (encodeConfig c) 44 20) = c.username := by
    simp only [chunk]
    rw [d44, take_of_length_eq l2, decodeStr_encodeStr h2]
  have e3 : decodeStr (chunk (encodeConfig c) 64 20) = c.password := by
    simp only [chunk]
    rw [d64, take_of_length_eq l3, decodeStr_encodeStr h3]
  have e4 : decodeStr (chunk (encodeConfig c) 84 60) = c.topic := by
    simp only [chunk]
    rw [d84, take_of_length_eq l4, decodeStr_encodeStr h4]
  have e5 : decodeStr (chunk (encodeConfig c) 144 20) = c.sw0propertyname := by
    simp only [chunk]
    rw [d144, take_of_length_eq l5, decodeStr_encodeStr h5]
  have e6 : decodeStr (chunk (encodeConfig c) 164 20) = c.sw1propertyname := by
    simp only [chunk]
    rw [d164, take_of_length_eq l6, decodeStr_encodeStr h6]
  have e7 : decodeStr (chunk (encodeConfig c) 184 20) = c.sw2propertyname := by
    simp only [chunk]
    rw [d184, take_of_length_eq l7, decodeStr_encodeStr h7]
  have e8 : decodeStr (chunk (encodeConfig c) 204 20) = c.sw3propertyname := by
    simp only [chunk]
    rw [d204, List.take_of_length_le (le_of_eq (encodeStr_length h8.1)),
      decodeStr_encodeStr h8]
  unfold decodeConfig
  rw [e1, ep, e2, e3, e4, e5, e6, e7, e8]

theorem writeByte_take_one {storage : List Nat} (h : storage ≠ []) (v : Nat) :
    (writeByte storage 0 v).take 1 = [v] := by
  cases storage with
  | nil => exact absurd rfl h
  | cons a t => rfl

theorem writeByte_drop_one (storage : List Nat) (v : Nat) :
    (writeByte storage 0 v).drop 1 = storage.drop 1 := by
  cases storage with
  | nil => rfl
  | cons a t => rfl

theorem readByte_cons_append (x : Nat) (B C : List Nat) :
    readByte (([x] ++ B) ++ C) 0 = x := by
  simp [readByte]

theorem readByte_saveConfig {c : MQTT_CONFIG} {storage : List Nat}
    (h : storage ≠ []) :
    readByte (saveConfig c storage) EEPROM_IS_CONFIGURED_TOKEN_STORAGE_ADDRESS =
      EEPROM_IS_CONFIGURED_TOKEN_VALUE := by
  unfold saveConfig writeBytes
  rw [show MQTT_CONFIG_STORAGE_ADDRESS = 1 from rfl]
  rw [show EEPROM_IS_CONFIGURED_TOKEN_STORAGE_ADDRESS = 0 from rfl]
  rw [writeByte_take_one h, readByte_cons_append]

theorem chunk_saveConfig {c : MQTT_CONFIG} {storage : List Nat}
    (hWF : WFConfig c) (h : storage ≠ []) :
    chunk (saveConfig c storage) 1 configSize = encodeConfig c := by
  unfold saveConfig writeBytes chunk
  rw [show MQTT_CONFIG_STORAGE_ADDRESS = 1 from rfl]
  rw [show EEPROM_IS_CONFIGURED_TOKEN_STORAGE_ADDRESS = 0 from rfl]
  rw [writeByte_take_one h, List.append_assoc,
    drop_of_length_eq (show ([EEPROM_IS_CONFIGURED_TOKEN_VALUE] : List Nat).length = 1 from rfl),
    take_of_length_eq (encodeConfig_length hWF)]

/-- C4: for every well-formed configuration record, `saveConfig`
followed by `loadConfig` on the same storage succeeds and returns the
saved record, whatever record the caller passed in. -/
theorem saveConfig_loadConfig_roundtrip (c c₀ : MQTT_CONFIG)
    (storage : List Nat) (hWF : WFConfig c) (hlen : storage.length = 512) :
    loadConfig (saveConfig c storage) c₀ = (true, c) := by
  have hne : storage ≠ [] := by
    intro h; rw [h] at hlen; simp at hlen
  unfold loadConfig
  rw [readByte_saveConfig hne, if_pos rfl]
  rw [show MQTT_CONFIG_STORAGE_ADDRESS = 1 from rfl]
  rw [chunk_saveConfig hWF hne, decodeConfig_encodeConfig hWF]

/-- C4 witness: a concrete fully-populated record survives the
save/load roundtrip on a fresh 512-byte EEPROM. -/
theorem saveConfig_loadConfig_roundtrip_witness :
    WFConfig sampleConfig ∧
    loadConfig (saveConfig sampleConfig zeroStorage) emptyConfig =
      (true, sampleConfig) :=
  ⟨by decide,
   saveConfig_loadConfig_roundtrip sampleConfig emptyConfig zeroStorage
     (by decide) (by decide)⟩

/-- C5: whenever the validity-marker byte differs from the expected
token, `loadConfig` returns false and hands back exactly the record the
caller passed in, whatever the body bytes hold. -/
theorem loadConfig_invalid_marker_preserves_config (storage : List Nat)
    (config : MQTT_CONFIG)
    (h : readByte storage EEPROM_IS_CONFIGURED_TOKEN_STORAGE_ADDRESS ≠
      EEPROM_IS_CONFIGURED_TOKEN_VALUE) :
    loadConfig storage config = (false, config) := by
  unfold loadConfig
  rw [if_neg h]

/-- C5 witness: storage filled with a non-token byte is reported absent
and the caller's record is untouched. -/
theorem loadConfig_invalid_marker_preserves_config_witness :
    readByte (List.replicate 512 7) EEPROM_IS_CONFIGURED_TOKEN_STORAGE_ADDRESS ≠
      EEPROM_IS_CONFIGURED_TOKEN_VALUE ∧
    loadConfig (List.replicate 512 7) sampleConfig = (false, sampleConfig) :=
  ⟨by decide,
   loadConfig_invalid_marker_preserves_config (List.replicate 512 7)
     sampleConfig (by decide)⟩

/-- C6 counterexample: on a concrete fresh EEPROM, the intermediate
state of `saveConfig` (after its first write) already holds the set
validity marker while the body region still holds the old, unwritten
bytes — refuting the claim that the marker is cleared first and set
only after the body is written. -/
theorem saveConfig_intermediate_pairs_marker_with_unwritten_body :
    readByte ((saveConfigTrace sampleConfig zeroStorage).getD 1 []) 0 =
      EEPROM_IS_CONFIGURED_TOKEN_VALUE ∧
    chunk ((saveConfigTrace sampleConfig zeroStorage).getD 1 []) 1 configSize ≠
      encodeConfig sampleConfig := by
  constructor
  · decide
  · decide

/-- C6 amended: `saveConfig` performs its two writes in the opposite
order to the claim — it sets the marker to the token value first (there
is no clearing step) and writes the body second, so the intermediate
state pairs a set marker with the previous body; after both writes the
marker is set and the body holds the new record. -/
theorem saveConfig_sets_marker_first_then_body (c : MQTT_CONFIG)
    (storage : List Nat) (hWF : WFConfig c) (hlen : storage.length = 512) :
    saveConfigTrace c storage =
      [storage, writeByte storage 0 EEPROM_IS_CONFIGURED_TOKEN_VALUE,
       saveConfig c storage] ∧
    readByte (writeByte storage 0 EEPROM_IS_CONFIGURED_TOKEN_VALUE) 0 =
      EEPROM_IS_CONFIGURED_TOKEN_VALUE ∧
    chunk (writeByte storage 0 EEPROM_IS_CONFIGURED_TOKEN_VALUE) 1 configSize =
      chunk storage 1 configSize ∧
    readByte (saveConfig c storage) 0 = EEPROM_IS_CONFIGURED_TOKEN_VALUE ∧
    chunk (saveConfig c storage) 1 configSize = encodeConfig c := by
  have hne : storage ≠ [] := by
    intro h; rw [h] at hlen; simp at hlen
  refine ⟨rfl, ?_, ?_, ?_, ?_⟩
  · cases storage with
    | nil => exact absurd rfl hne
    | cons a t => rfl
  · unfold chunk
    rw [writeByte_drop_one]
  · exact readByte_saveConfig hne
  · exact chunk_saveConfig hWF hne

/-- C6 amended witness: concrete instance on a fresh EEPROM. -/
theorem saveConfig_sets_marker_first_then_body_witness :
    WFConfig sampleConfig ∧ zeroStorage.length = 512 ∧
    chunk (saveConfig sampleConfig zeroStorage) 1 configSize =
      encodeConfig sampleConfig :=
  ⟨by decide, by decide,
   (saveConfig_sets_marker_first_then_body sampleConfig zeroStorage
     (by decide) (by decide)).2.2.2.2⟩

/-- C7 counterexample: a concrete portal submission whose broker host
field is empty is persisted anyway — after the `setup()` save block the
storage carries a set validity marker and loads back successfully as a
record with an empty broker host — refuting the claim that required
fields are validated before the submission is handed to the store. -/
theorem portal_empty_servername_is_persisted :
    sampleSubmission.servername = "" ∧
    readByte (applyPortal true sampleSubmission emptyConfig zeroStorage).2 0 =
      EEPROM_IS_CONFIGURED_TOKEN_VALUE ∧
    (loadConfig (applyPortal true sampleSubmission emptyConfig zeroStorage).2
      emptyConfig).1 = true ∧
    (loadConfig (applyPortal true sampleSubmission emptyConfig zeroStorage).2
      emptyConfig).2.servername = "" := by
  refine ⟨rfl, ?_, ?_, ?_⟩ <;> decide

/-- C7 amended: the `setup()` save block performs no validation at all:
whenever the portal's save flag is set, the submitted values — the
broker host included, even when empty — are copied verbatim into the
configuration and written to storage, from which they load back as a
valid record. -/
theorem portal_submission_persisted_without_validation
    (sub : PortalSubmission) (config c₀ : MQTT_CONFIG) (storage : List Nat)
    (hWF : WFConfig (mergeSubmission sub)) (hlen : storage.length = 512)
    (hempty : sub.servername = "") :
    (applyPortal true sub config storage).1.servername = "" ∧
    loadConfig (applyPortal true sub config storage).2 c₀ =
      (true, mergeSubmission sub) := by
  constructor
  · show (mergeSubmission sub).servername = ""
    exact hempty
  · show loadConfig (saveConfig (mergeSubmission sub) storage) c₀ =
      (true, mergeSubmission sub)
    exact saveConfig_loadConfig_roundtrip _ _ _ hWF hlen

/-- C7 amended witness: concrete instance. -/
theorem portal_submission_persisted_without_validation_witness :
    WFConfig (mergeSubmission sampleSubmission) ∧
    sampleSubmission.servername = "" ∧
    ((applyPortal true sampleSubmission emptyConfig zeroStorage).1.servername = "" ∧
     loadConfig (applyPortal true sampleSubmission emptyConfig zeroStorage).2
       emptyConfig = (true, mergeSubmission sampleSubmission)) :=
  ⟨by decide, rfl,
   portal_submission_persisted_without_validation sampleSubmission
     emptyConfig emptyConfig zeroStorage (by decide) (by decide) rfl⟩

/-! ## Buffer and polling lemmas -/

theorem getMem_setMem_self (b : Buffer) (k : String) (v : Int) :
    getMem (setMem b k v) k = some v := by
  induction b with
  | nil => simp [setMem, getMem]
  | cons p rest ih =>
      obtain ⟨q, w⟩ := p
      by_cases h : q = k
      · subst h
        simp [setMem, getMem]
      · simp only [setMem, getMem, if_neg h]
        exact ih

theorem getMem_setMem_ne (b : Buffer) (k q : String) (v : Int) (h : k ≠ q) :
    getMem (setMem b k v) q = getMem b q := by
  induction b with
  | nil =>
      simp only [setMem, getMem]
      rw [if_neg h]
  | cons p rest ih =>
      obtain ⟨r, w⟩ := p
      simp only [setMem]
      by_cases hr : r = k
      · rw [if_pos hr]
        simp only [getMem]
        have hrq : ¬r = q := by rw [hr]; exact h
        rw [if_neg hrq, if_neg hrq]
      · rw [if_neg hr]
        simp only [getMem]
        by_cases hq : r = q
        · rw [if_pos hq, if_pos hq]
        · rw [if_neg hq, if_neg hq]
          exact ih

theorem castGet_eq_getMem {b : Buffer} {k : String} {x : Int} (hx : x ≠ 0)
    (h : castGet b k = x) : getMem b k = some x := by
  unfold castGet at h
  cases hg : getMem b k with
  | none => rw [hg] at h; simp at h; exact absurd h.symm hx
  | some a => rw [hg] at h; simp at h; rw [h]

theorem castCompareStep_getMem_self {v : Int} (hv : v ≠ 0) (k : String)
    (bd : Buffer × Bool) :
    getMem (castCompareStep k v bd).1 k = some v := by
  unfold castCompareStep
  split_ifs with h
  · exact getMem_setMem_self bd.1 k v
  · push_neg at h
    exact castGet_eq_getMem hv h

theorem castCompareStep_getMem_ne {k q : String} (h : k ≠ q) (v : Int)
    (bd : Buffer × Bool) :
    getMem (castCompareStep k v bd).1 q = getMem bd.1 q := by
  unfold castCompareStep
  split_ifs
  · exact getMem_setMem_ne bd.1 k q v h
  · rfl

theorem variantCompareStep_getMem_self (k : String) (v : Int)
    (bd : Buffer × Bool) :
    getMem (variantCompareStep k v bd).1 k = some v := by
  unfold variantCompareStep
  split_ifs with h
  · exact getMem_setMem_self bd.1 k v
  · push_neg at h
    exact h

theorem variantCompareStep_getMem_ne {k q : String} (h : k ≠ q) (v : Int)
    (bd : Buffer × Bool) :
    getMem (variantCompareStep k v bd).1 q = getMem bd.1 q := by
  unfold variantCompareStep
  split_ifs
  · exact getMem_setMem_ne bd.1 k q v h
  · rfl

theorem pollSwitch_empty_alias (v : Int) (bd : Buffer × Bool) :
    MultiHTT.pollSwitch "" v bd = bd := by
  simp [MultiHTT.pollSwitch]

theorem pollSwitch_getMem_ne {name q : String} (h : name ≠ q) (v : Int)
    (bd : Buffer × Bool) :
    getMem (MultiHTT.pollSwitch name v bd).1 q = getMem bd.1 q := by
  unfold MultiHTT.pollSwitch
  split_ifs
  · exact variantCompareStep_getMem_ne h v bd
  · rfl

theorem pollSwitch_getMem_empty (name : String) (v : Int)
    (bd : Buffer × Bool) :
    getMem (MultiHTT.pollSwitch name v bd).1 "" = getMem bd.1 "" := by
  unfold MultiHTT.pollSwitch
  split_ifs with h1
  · have hne : name ≠ "" := by
      intro e
      rw [e] at h1
      exact h1 rfl
    exact variantCompareStep_getMem_ne hne v bd
  · rfl

theorem dallasKey_ne {q : String} (hq : q.data.head? ≠ some 'D')
    (address : List Nat) : dallasKey address ≠ q := by
  intro e
  apply hq
  rw [← e]
  rfl

theorem foldl_pollDallas_getMem {q : String} (hq : q.data.head? ≠ some 'D')
    (l : List (Option DallasReading)) (bd : Buffer × Bool) :
    getMem ((l.foldl MultiHTT.pollDallas bd).1) q = getMem bd.1 q := by
  induction l generalizing bd with
  | nil => rfl
  | cons r rest ih =>
      rw [List.foldl_cons, ih]
      cases r with
      | none => rfl
      | some r =>
          exact castCompareStep_getMem_ne (dallasKey_ne hq r.address) r.tempC bd

theorem pollAM_not_connected (readOk : Bool) (humidity temperature : Int)
    (bd : Buffer × Bool) :
    MultiHTT.pollAM false readOk humidity temperature bd = bd := rfl

theorem pollAM_read_fail (humidity temperature : Int) (bd : Buffer × Bool) :
    getMem (MultiHTT.pollAM true false humidity temperature bd).1 "humidity" =
      some 999 ∧
    getMem (MultiHTT.pollAM true false humidity temperature bd).1 "temperature" =
      some 999 := by
  have e : MultiHTT.pollAM true false humidity temperature bd =
      castCompareStep "temperature" 999 (castCompareStep "humidity" 999 bd) := rfl
  rw [e]
  constructor
  · rw [castCompareStep_getMem_ne (by decide) 999
      (castCompareStep "humidity" 999 bd)]
    exact castCompareStep_getMem_self (by decide) "humidity" bd
  · exact castCompareStep_getMem_self (by decide) "temperature"
      (castCompareStep "humidity" 999 bd)

theorem pollAM_getMem_ne {q : String} (hqh : q ≠ "humidity")
    (hqt : q ≠ "temperature") (connected readOk : Bool)
    (humidity temperature : Int) (bd : Buffer × Bool) :
    getMem (MultiHTT.pollAM connected readOk humidity temperature bd).1 q =
      getMem bd.1 q := by
  unfold MultiHTT.pollAM
  split_ifs
  · rw [castCompareStep_getMem_ne (Ne.symm hqt) temperature
      (castCompareStep "humidity" humidity bd),
      castCompareStep_getMem_ne (Ne.symm hqh) humidity bd]
  · rw [castCompareStep_getMem_ne (Ne.symm hqt) MultiHTT.SENSOR_UNDEFINED_VALUE
      (castCompareStep "humidity" MultiHTT.SENSOR_UNDEFINED_VALUE bd),
      castCompareStep_getMem_ne (Ne.symm hqh) MultiHTT.SENSOR_UNDEFINED_VALUE bd]
  · rfl

/-! ## multiHTT-0.90 loop shape lemmas -/

theorem loop_eq_of_gate (cfg : MQTT_CONFIG) (s : MultiHTT.SchedState)
    (inp : MultiHTT.TickInput) (h : inp.now > s.softDeadline) :
    MultiHTT.loop cfg s inp =
      (if (MultiHTT.pollAll cfg s.buffer inp).2 = true ∨
          inp.now > s.hardDeadline then
        ({ softDeadline := inp.now + MultiHTT.MQTT_PUBLISH_SOFT_INTERVAL,
           hardDeadline := inp.now + MultiHTT.MQTT_PUBLISH_HARD_INTERVAL,
           buffer := (MultiHTT.pollAll cfg s.buffer inp).1 },
         some (MultiHTT.pollAll cfg s.buffer inp).1)
      else
        ({ softDeadline := inp.now + MultiHTT.MQTT_PUBLISH_SOFT_INTERVAL,
           hardDeadline := s.hardDeadline,
           buffer := (MultiHTT.pollAll cfg s.buffer inp).1 }, none)) := by
  unfold MultiHTT.loop
  rw [if_pos h]

theorem loop_eq_of_no_gate (cfg : MQTT_CONFIG) (s : MultiHTT.SchedState)
    (inp : MultiHTT.TickInput) (h : ¬inp.now > s.softDeadline) :
    MultiHTT.loop cfg s inp = (s, none) := by
  unfold MultiHTT.loop
  rw [if_neg h]

theorem loop_buffer_eq_pollAll (cfg : MQTT_CONFIG) (s : MultiHTT.SchedState)
    (inp : MultiHTT.TickInput) (h : inp.now > s.softDeadline) :
    (MultiHTT.loop cfg s inp).1.buffer =
      (MultiHTT.pollAll cfg s.buffer inp).1 := by
  rw [loop_eq_of_gate cfg s inp h]
  split <;> rfl

theorem loop_payload_eq_buffer (cfg : MQTT_CONFIG) (s : MultiHTT.SchedState)
    (inp : MultiHTT.TickInput) (pl : Buffer)
    (h : (MultiHTT.loop cfg s inp).2 = some pl) :
    pl = (MultiHTT.loop cfg s inp).1.buffer := by
  by_cases hg : inp.now > s.softDeadline
  · rw [loop_eq_of_gate cfg s inp hg] at h ⊢
    revert h
    split
    · intro h
      injection h with h
      rw [← h]
    · intro h
      exact absurd h (by simp)
  · rw [loop_eq_of_no_gate cfg s inp hg] at h
    exact absurd h (by simp)

theorem loop_congr (cfg : MQTT_CONFIG) (s : MultiHTT.SchedState)
    {inp inp' : MultiHTT.TickInput} (hn : inp.now = inp'.now)
    (hp : MultiHTT.pollAll cfg s.buffer inp = MultiHTT.pollAll cfg s.buffer inp') :
    MultiHTT.loop cfg s inp = MultiHTT.loop cfg s inp' := by
  unfold MultiHTT.loop
  rw [hn, hp]

/-! ## Claim theorems for the schedulers -/

/-- C1: in the `multiHTT-0.90.cpp` scheduler every gate-passing tick
sets the soft deadline to `now + soft interval` and every publishing
tick sets the hard deadline to `now + hard interval`; but in
`multi001-v1.cpp`, whose intervals are configuration fields, the two
assignments are swapped: a concrete publishing tick under the default
configuration (soft 3000, hard 30000) leaves the hard deadline at
`now + 3000` (the soft interval) and the soft deadline at `now + 30000`
(the hard interval). -/
theorem publishing_tick_deadline_updates :
    (∀ (cfg : MQTT_CONFIG) (s : MultiHTT.SchedState) (inp : MultiHTT.TickInput),
        inp.now > s.softDeadline →
        (MultiHTT.loop cfg s inp).1.softDeadline =
          inp.now + MultiHTT.MQTT_PUBLISH_SOFT_INTERVAL ∧
        ∀ pl, (MultiHTT.loop cfg s inp).2 = some pl →
          (MultiHTT.loop cfg s inp).1.hardDeadline =
            inp.now + MultiHTT.MQTT_PUBLISH_HARD_INTERVAL) ∧
    (v1Config.softpublicationinterval = 3000 ∧
     v1Config.hardpublicationinterval = 30000 ∧
     (Multi001V1.loop v1Config ⟨0, 0, []⟩ v1QuietTick).2.isSome = true ∧
     (Multi001V1.loop v1Config ⟨0, 0, []⟩ v1QuietTick).1.hardDeadline = 1 + 3000 ∧
     (Multi001V1.loop v1Config ⟨0, 0, []⟩ v1QuietTick).1.softDeadline = 1 + 30000) := by
  constructor
  · intro cfg s inp h
    rw [loop_eq_of_gate cfg s inp h]
    split
    · exact ⟨rfl, fun pl _ => rfl⟩
    · refine ⟨rfl, fun pl hpl => ?_⟩
      exact absurd hpl (by simp)
  · refine ⟨rfl, rfl, ?_, ?_, ?_⟩ <;> decide

/-- C1 witness: a concrete gate-passing, publishing multiHTT tick gets
the correct deadline updates. -/
theorem publishing_tick_deadline_updates_witness :
    (MultiHTT.loop emptyConfig ⟨0, 0, []⟩ disconnectedTick).1.softDeadline = 3001 ∧
    (MultiHTT.loop emptyConfig ⟨0, 0, []⟩ disconnectedTick).1.hardDeadline = 30001 := by
  have h := publishing_tick_deadline_updates.1 emptyConfig ⟨0, 0, []⟩
    disconnectedTick (by decide)
  exact ⟨h.1, h.2 [] (by decide)⟩

/-- C2: a tick whose current time is past both the soft-deadline gate
and the hard deadline always publishes, whatever the readings — the
heartbeat of the two-timer scheduler. -/
theorem tick_past_both_deadlines_publishes (cfg : MQTT_CONFIG)
    (s : MultiHTT.SchedState) (inp : MultiHTT.TickInput)
    (hsoft : inp.now > s.softDeadline) (hhard : inp.now > s.hardDeadline) :
    ((MultiHTT.loop cfg s inp).2).isSome = true := by
  rw [loop_eq_of_gate cfg s inp hsoft, if_pos (Or.inr hhard)]
  rfl

/-- C2 witness: a concrete unchanged-readings tick past both deadlines
publishes. -/
theorem tick_past_both_deadlines_publishes_witness :
    disconnectedTick.now > (⟨0, 0, []⟩ : MultiHTT.SchedState).softDeadline ∧
    disconnectedTick.now > (⟨0, 0, []⟩ : MultiHTT.SchedState).hardDeadline ∧
    ((MultiHTT.loop emptyConfig ⟨0, 0, []⟩ disconnectedTick).2).isSome = true :=
  ⟨by decide, by decide,
   tick_past_both_deadlines_publishes emptyConfig ⟨0, 0, []⟩ disconnectedTick
     (by decide) (by decide)⟩

/-- C3 counterexample: a concrete tick whose broker publish fails
(`publishOk = false`) still replaces the snapshot with the just-polled
values — the snapshot is not left unchanged on a failed publish, so the
changed reading will not be retried by change detection on the next
tick. -/
theorem failed_publish_updates_snapshot_counterexample :
    failedPublishTick.publishOk = false ∧
    (MultiHTT.loop emptyConfig ⟨0, 0, []⟩ failedPublishTick).2 =
      some [("humidity", 50), ("temperature", 21)] ∧
    (MultiHTT.loop emptyConfig ⟨0, 0, []⟩ failedPublishTick).1.buffer =
      [("humidity", 50), ("temperature", 21)] ∧
    ([] : Buffer) ≠ [("humidity", 50), ("temperature", 21)] := by
  refine ⟨rfl, ?_, ?_, ?_⟩ <;> decide

/-- C3 amended: the scheduler ignores the broker's publish result
entirely — the whole tick outcome is independent of it — and the
snapshot is replaced by the just-polled values on every gate-passing
tick, before and regardless of the publish outcome; a failed publish is
therefore not retried by change detection and is re-sent only when the
hard-interval heartbeat fires. -/
theorem tick_ignores_publish_result (cfg : MQTT_CONFIG)
    (s : MultiHTT.SchedState) (inp : MultiHTT.TickInput) (b : Bool) :
    MultiHTT.loop cfg s { inp with publishOk := b } = MultiHTT.loop cfg s inp ∧
    (inp.now > s.softDeadline →
      (MultiHTT.loop cfg s inp).1.buffer =
        (MultiHTT.pollAll cfg s.buffer inp).1) :=
  ⟨rfl, fun h => loop_buffer_eq_pollAll cfg s inp h⟩

/-- C3 amended witness: concrete instance with a failed publish. -/
theorem tick_ignores_publish_result_witness :
    MultiHTT.loop emptyConfig ⟨0, 0, []⟩
        { failedPublishTick with publishOk := true } =
      MultiHTT.loop emptyConfig ⟨0, 0, []⟩ failedPublishTick ∧
    (MultiHTT.loop emptyConfig ⟨0, 0, []⟩ failedPublishTick).1.buffer =
      (MultiHTT.pollAll emptyConfig [] failedPublishTick).1 := by
  have h := tick_ignores_publish_result emptyConfig ⟨0, 0, []⟩
    failedPublishTick true
  exact ⟨h.1, h.2 (by decide)⟩

/-- C8 counterexample: in `multi001-v1.cpp` the switch channels are
polled without a `strlen` guard, so a concrete tick under a
configuration whose SW0 alias is the empty string still polls SW0 and
publishes a payload carrying a key for it (the empty-string key) —
refuting the claim for that variant. -/
theorem empty_alias_polled_and_published_counterexample :
    v1ConfigEmptyAlias.sw0propertyname = "" ∧
    (Multi001V1.loop v1ConfigEmptyAlias ⟨0, 0, []⟩ v1QuietTickEmptyAlias).2 =
      some [("", 0), ("sw1", 0)] ∧
    getMem [("", 0), ("sw1", 0)] "" = some 0 := by
  refine ⟨rfl, ?_, ?_⟩ <;> decide

/-- C8 amended: in the `multiHTT-0.90.cpp` scheduler, whose switch
blocks are guarded by `strlen(alias)`, a switch channel with an empty
alias is never polled (the tick outcome is independent of that switch's
input) and no key for it — the empty-string key — ever enters a
published payload, provided the snapshot did not already hold one; the
`multi001-v1.cpp` scheduler polls its switches unconditionally and does
publish an empty-string key for an empty alias. -/
theorem disabled_channel_not_polled_no_empty_key (cfg : MQTT_CONFIG)
    (s : MultiHTT.SchedState) (inp : MultiHTT.TickInput) (v : Int) :
    (cfg.sw0propertyname = "" →
      MultiHTT.loop cfg s { inp with sw0 := v } = MultiHTT.loop cfg s inp) ∧
    (cfg.sw1propertyname = "" →
      MultiHTT.loop cfg s { inp with sw1 := v } = MultiHTT.loop cfg s inp) ∧
    (cfg.sw2propertyname = "" →
      MultiHTT.loop cfg s { inp with sw2 := v } = MultiHTT.loop cfg s inp) ∧
    (cfg.sw3propertyname = "" →
      MultiHTT.loop cfg s { inp with sw3 := v } = MultiHTT.loop cfg s inp) ∧
    (getMem s.buffer "" = none →
      ∀ pl, (MultiHTT.loop cfg s inp).2 = some pl → getMem pl "" = none) := by
  refine ⟨?_, ?_, ?_, ?_, ?_⟩
  · intro h
    refine loop_congr cfg s rfl ?_
    unfold MultiHTT.pollAll
    dsimp only
    rw [h, pollSwitch_empty_alias v, pollSwitch_empty_alias inp.sw0]
  · intro h
    refine loop_congr cfg s rfl ?_
    unfold MultiHTT.pollAll
    dsimp only
    rw [h, pollSwitch_empty_alias v, pollSwitch_empty_alias inp.sw1]
  · intro h
    refine loop_congr cfg s rfl ?_
    unfold MultiHTT.pollAll
    dsimp only
    rw [h, pollSwitch_empty_alias v, pollSwitch_empty_alias inp.sw2]
  · intro h
    refine loop_congr cfg s rfl ?_
    unfold MultiHTT.pollAll
    dsimp only
    rw [h, pollSwitch_empty_alias v, pollSwitch_empty_alias inp.sw3]
  · intro hnone pl hpl
    by_cases hg : inp.now > s.softDeadline
    · rw [loop_payload_eq_buffer cfg s inp pl hpl,
        loop_buffer_eq_pollAll cfg s inp hg]
      unfold MultiHTT.pollAll
      rw [pollSwitch_getMem_empty, pollSwitch_getMem_empty,
        pollSwitch_getMem_empty, pollSwitch_getMem_empty,
        pollAM_getMem_ne (by decide) (by decide),
        foldl_pollDallas_getMem (by decide)]
      exact hnone
    · rw [loop_eq_of_no_gate cfg s inp hg] at hpl
      exact absurd hpl (by simp)

/-- C8 amended witness: concrete instance — with SW0 disabled the tick
outcome ignores the SW0 input, and the published payload has no
empty-string key. -/
theorem disabled_channel_not_polled_no_empty_key_witness :
    MultiHTT.loop emptyConfig ⟨0, 0, []⟩ { disconnectedTick with sw0 := 1 } =
      MultiHTT.loop emptyConfig ⟨0, 0, []⟩ disconnectedTick ∧
    getMem [] "" = none := by
  have h := disabled_channel_not_polled_no_empty_key emptyConfig ⟨0, 0, []⟩
    disconnectedTick 1
  refine ⟨h.1 rfl, ?_⟩
  have h2 := h.2.2.2.2 (by decide) [] (by decide)
  exact h2

/-- C9 counterexample: a concrete tick on which the AM2322 reports
not-connected, while the snapshot still holds earlier in-range values,
publishes those stale in-range values (humidity 50) rather than the
sentinel 999 — refuting the claim that a not-connected device yields
the sentinel. -/
theorem am2322_not_connected_publishes_stale_counterexample :
    disconnectedTick.amConnected = false ∧
    (MultiHTT.loop emptyConfig staleState disconnectedTick).2 =
      some [("humidity", 50), ("temperature", 21)] ∧
    getMem [("humidity", 50), ("temperature", 21)] "humidity" = some 50 ∧
    ((50 : Int) ≠ 999 ∧ 0 ≤ (50 : Int) ∧ (50 : Int) ≤ 100) := by
  refine ⟨rfl, ?_, ?_, ?_⟩ <;> decide

/-- C9 amended: on a gate-passing tick (with no switch aliased to the
reserved member names) a connected-but-unreadable AM2322 puts exactly
the sentinel 999 into both of its members, and every published payload
is exactly the updated snapshot; but a not-connected AM2322 is skipped
entirely — both members keep whatever the snapshot held before, so a
stale in-range value (or no member at all) is published instead of the
sentinel. -/
theorem am2322_read_failure_publishes_sentinel (cfg : MQTT_CONFIG)
    (s : MultiHTT.SchedState) (inp : MultiHTT.TickInput)
    (hgate : inp.now > s.softDeadline)
    (h0h : cfg.sw0propertyname ≠ "humidity")
    (h1h : cfg.sw1propertyname ≠ "humidity")
    (h2h : cfg.sw2propertyname ≠ "humidity")
    (h3h : cfg.sw3propertyname ≠ "humidity")
    (h0t : cfg.sw0propertyname ≠ "temperature")
    (h1t : cfg.sw1propertyname ≠ "temperature")
    (h2t : cfg.sw2propertyname ≠ "temperature")
    (h3t : cfg.sw3propertyname ≠ "temperature") :
    ((inp.amConnected = true ∧ inp.amReadOk = false) →
      getMem (MultiHTT.loop cfg s inp).1.buffer "humidity" = some 999 ∧
      getMem (MultiHTT.loop cfg s inp).1.buffer "temperature" = some 999) ∧
    (inp.amConnected = false →
      getMem (MultiHTT.loop cfg s inp).1.buffer "humidity" =
        getMem s.buffer "humidity" ∧
      getMem (MultiHTT.loop cfg s inp).1.buffer "temperature" =
        getMem s.buffer "temperature") ∧
    (∀ pl, (MultiHTT.loop cfg s inp).2 = some pl →
      pl = (MultiHTT.loop cfg s inp).1.buffer) := by
  have hbuf := loop_buffer_eq_pollAll cfg s inp hgate
  refine ⟨?_, ?_, ?_⟩
  · rintro ⟨hc, hr⟩
    rw [hbuf]
    unfold MultiHTT.pollAll
    constructor
    · rw [pollSwitch_getMem_ne h3h, pollSwitch_getMem_ne h2h,
        pollSwitch_getMem_ne h1h, pollSwitch_getMem_ne h0h, hc, hr]
      exact (pollAM_read_fail inp.amHumidity inp.amTemperature _).1
    · rw [pollSwitch_getMem_ne h3t, pollSwitch_getMem_ne h2t,
        pollSwitch_getMem_ne h1t, pollSwitch_getMem_ne h0t, hc, hr]
      exact (pollAM_read_fail inp.amHumidity inp.amTemperature _).2
  · intro hc
    rw [hbuf]
    unfold MultiHTT.pollAll
    constructor
    · rw [pollSwitch_getMem_ne h3h, pollSwitch_getMem_ne h2h,
        pollSwitch_getMem_ne h1h, pollSwitch_getMem_ne h0h, hc,
        pollAM_not_connected]
      exact foldl_pollDallas_getMem (by decide) inp.dallas (s.buffer, false)
    · rw [pollSwitch_getMem_ne h3t, pollSwitch_getMem_ne h2t,
        pollSwitch_getMem_ne h1t, pollSwitch_getMem_ne h0t, hc,
        pollAM_not_connected]
      exact foldl_pollDallas_getMem (by decide) inp.dallas (s.buffer, false)
  · intro pl hpl
    exact loop_payload_eq_buffer cfg s inp pl hpl

/-- C9 amended witness: a concrete connected-but-unreadable tick puts
the sentinel into both members. -/
theorem am2322_read_failure_publishes_sentinel_witness :
    getMem (MultiHTT.loop emptyConfig ⟨0, 0, []⟩ readFailTick).1.buffer
      "humidity" = some 999 ∧
    getMem (MultiHTT.loop emptyConfig ⟨0, 0, []⟩ readFailTick).1.buffer
      "temperature" = some 999 := by
  have h := am2322_read_failure_publishes_sentinel emptyConfig ⟨0, 0, []⟩
    readFailTick (by decide) (by decide) (by decide) (by decide) (by decide)
    (by decide) (by decide) (by decide) (by decide)
  exact h.1 ⟨rfl, rfl⟩

/-- C10: in the motion-latch variant, whenever the interrupt-set latch
is true at the start of a tick, that tick polls the sensors and
publishes the fresh readings immediately — the deadline comparison is
bypassed — then clears the latch and resets the deadline. -/
theorem motion_latch_forces_immediate_poll_and_publish
    (s : MotionV1.MotionState) (inp : MotionV1.MotionInput)
    (h : s.motionDetected = true) :
    MotionV1.loop s inp =
      ({ motionDetected := false,
         publishDeadline := inp.now + MotionV1.MQTT_PUBLISH_INTERVAL },
       some { temperature := inp.temperature, motion := inp.motionPin,
              lux := inp.lux }) := by
  unfold MotionV1.loop
  rw [if_pos (Or.inl h)]

/-- C10 witness: with the latch set and the current time well before
the deadline, the tick still publishes the fresh readings. -/
theorem motion_latch_forces_immediate_poll_and_publish_witness :
    ((5 : Int) < 1000) ∧
    MotionV1.loop ⟨true, 1000⟩ ⟨5, 21, 1, 300⟩ =
      (⟨false, 5 + MotionV1.MQTT_PUBLISH_INTERVAL⟩, some ⟨21, 1, 300⟩) :=
  ⟨by decide,
   motion_latch_forces_immediate_poll_and_publish ⟨true, 1000⟩ ⟨5, 21, 1, 300⟩ rfl⟩
